import Mathlib

/-!
Verification development for the Marlin EEPROM editor front-end
(`octoprint_eeprom_marlin/static/js/eeprom_marlin.js`).

The development shallowly embeds the JavaScript source:

* a small backtracking regular-expression engine covering exactly the
  JS regex subset used by the source (literal characters, character
  classes, `.`, greedy `*` and `+`, numbered capture groups, unanchored
  `exec` returning the leftmost match with greedy-first backtracking);
* the version-dispatched grammar registry `setRegExVars`;
* the streaming line extractor `eepromFieldParse` over the parameter
  store (the eighteen `eepromData*` observable arrays);
* the save / load / restore operations and the backup terminal test.

All definitions are executable, so concrete runs are settled by `decide`.
-/

namespace EepromMarlin

/-! ## Regular-expression engine

JS character-class atom: `.` (any char except newline), `[c...]`, `[^c...]`. -/

inductive CClass where
  | any : CClass
  | oneOf : List Char → CClass
  | noneOf : List Char → CClass
deriving DecidableEq, Repr

inductive Quant where
  | one : Quant
  | star : Quant
  | plus : Quant
deriving DecidableEq, Repr

/-- One item of a regex sequence: a literal character, an uncaptured
class atom, an uncaptured starred atom, or a capture group holding a
quantified atom (`([X])`, `(.*)`, `([0-1]*)`, `([0-9.]+)` — the only
group shapes occurring in the source). -/
inductive RItem where
  | lit : Char → RItem
  | cc : CClass → RItem
  | star : CClass → RItem
  | grp : Quant → CClass → RItem
deriving DecidableEq, Repr

structure Regex where
  items : List RItem
deriving DecidableEq, Repr

def CClass.test : CClass → Char → Bool
  | .any, c => c != '\n'
  | .oneOf l, c => l.contains c
  | .noneOf l, c => !(l.contains c)

/-- Maximal prefix of `s` whose characters all satisfy `k`. -/
def starRun (k : CClass) : List Char → List Char
  | [] => []
  | c :: cs => if k.test c then c :: starRun k cs else []

/-- All ways a greedy `k*` can split `s` into consumed prefix and
remainder, longest consumed prefix first (JS backtracking order). -/
def starSplits (k : CClass) (s : List Char) : List (List Char × List Char) :=
  let n := (starRun k s).length
  (List.range (n + 1)).map (fun i => (s.take (n - i), s.drop (n - i)))

/-- Same for `k+`: at least one character must be consumed. -/
def plusSplits (k : CClass) (s : List Char) : List (List Char × List Char) :=
  let n := (starRun k s).length
  (List.range n).map (fun i => (s.take (n - i), s.drop (n - i)))

/-- Match a regex sequence at the start of `s`; on success return the
capture-group values in group order (JS `match[1]`, `match[2]`, ...).
Greedy quantifiers backtrack longest-first, exactly as JS `exec`. -/
def matchSeq : List RItem → List Char → Option (List String)
  | [], _ => some []
  | RItem.lit _ :: _, [] => none
  | RItem.lit c :: rest, x :: xs => if x == c then matchSeq rest xs else none
  | RItem.cc _ :: _, [] => none
  | RItem.cc k :: rest, x :: xs => if k.test x then matchSeq rest xs else none
  | RItem.star k :: rest, s =>
      (starSplits k s).findSome? (fun p => matchSeq rest p.2)
  | RItem.grp Quant.one _ :: _, [] => none
  | RItem.grp Quant.one k :: rest, x :: xs =>
      if k.test x then (matchSeq rest xs).map (fun caps => String.mk [x] :: caps)
      else none
  | RItem.grp Quant.star k :: rest, s =>
      (starSplits k s).findSome?
        (fun p => (matchSeq rest p.2).map (fun caps => String.mk p.1 :: caps))
  | RItem.grp Quant.plus k :: rest, s =>
      (plusSplits k s).findSome?
        (fun p => (matchSeq rest p.2).map (fun caps => String.mk p.1 :: caps))

/-- Unanchored search: try each start position from the left, as JS
`RegExp.exec` does. -/
def execFrom (r : List RItem) : List Char → Option (List String)
  | [] => matchSeq r []
  | c :: cs =>
      match matchSeq r (c :: cs) with
      | some caps => some caps
      | none => execFrom r cs

def Regex.exec (r : Regex) (s : String) : Option (List String) :=
  execFrom r.items s.data

/-! ## The source's regex literals -/

def lits (s : String) : List RItem := s.data.map RItem.lit

def digits : List Char := ['0', '1', '2', '3', '4', '5', '6', '7', '8', '9']

/-- `[^0-9]` -/
def nonDigit : RItem := RItem.cc (CClass.noneOf digits)

/-- A single-character capture group `([c])`. -/
def g1 (c : Char) : RItem := RItem.grp Quant.one (CClass.oneOf [c])

/-- The ubiquitous `(.*)` capture group. -/
def gAny : RItem := RItem.grp Quant.star CClass.any

/-- `/M501/` -/
def eepromM501Pattern : Regex := ⟨lits "M501"⟩

/-- `/ok/` -/
def eepromOKPattern : Regex := ⟨lits "ok"⟩

/-- `/M92 ([X])(.*)[^0-9]([Y])(.*)[^0-9]([Z])(.*)[^0-9]([E])(.*)/` -/
def eepromM92Pattern : Regex :=
  ⟨lits "M92 " ++ [g1 'X', gAny, nonDigit, g1 'Y', gAny, nonDigit, g1 'Z', gAny,
    nonDigit, g1 'E', gAny]⟩

/-- `/M200 ([D])(.*)/` -/
def eepromM200Pattern : Regex := ⟨lits "M200 " ++ [g1 'D', gAny]⟩

/-- `/M201 ([X])(.*)[^0-9]([Y])(.*)[^0-9]([Z])(.*)[^0-9]([E])(.*)/` -/
def eepromM201Pattern : Regex :=
  ⟨lits "M201 " ++ [g1 'X', gAny, nonDigit, g1 'Y', gAny, nonDigit, g1 'Z', gAny,
    nonDigit, g1 'E', gAny]⟩

/-- `/M203 ([X])(.*)[^0-9]([Y])(.*)[^0-9]([Z])(.*)[^0-9]([E])(.*)/` -/
def eepromM203Pattern : Regex :=
  ⟨lits "M203 " ++ [g1 'X', gAny, nonDigit, g1 'Y', gAny, nonDigit, g1 'Z', gAny,
    nonDigit, g1 'E', gAny]⟩

/-- `/M206 ([X])(.*)[^0-9]([Y])(.*)[^0-9]([Z])(.*)/` -/
def eepromM206Pattern : Regex :=
  ⟨lits "M206 " ++ [g1 'X', gAny, nonDigit, g1 'Y', gAny, nonDigit, g1 'Z', gAny]⟩

/-- `/M304 ([P])(.*)[^0-9]([I])(.*)[^0-9]([D])(.*)/` -/
def eepromM304Pattern : Regex :=
  ⟨lits "M304 " ++ [g1 'P', gAny, nonDigit, g1 'I', gAny, nonDigit, g1 'D', gAny]⟩

/-- `/M420 ([S])([0-1]*)[^0-9]*([Z]*)(.*)/` -/
def eepromM420Pattern : Regex :=
  ⟨lits "M420 " ++ [g1 'S', RItem.grp Quant.star (CClass.oneOf ['0', '1']),
    RItem.star (CClass.noneOf digits), RItem.grp Quant.star (CClass.oneOf ['Z']),
    gAny]⟩

/-- `/M851 ([Z])(.*)/` -/
def eepromM851Pattern : Regex := ⟨lits "M851 " ++ [g1 'Z', gAny]⟩

/-- `/M665 ([L])(.*)[^0-9]([R])(.*)[^0-9]([H])(.*)[^0-9]([S])(.*)[^0-9]([B])(.*)[^0-9]([X])(.*)[^0-9]([Y])(.*)[^0-9]([Z])(.*)/` -/
def eepromM665Pattern : Regex :=
  ⟨lits "M665 " ++ [g1 'L', gAny, nonDigit, g1 'R', gAny, nonDigit, g1 'H', gAny,
    nonDigit, g1 'S', gAny, nonDigit, g1 'B', gAny, nonDigit, g1 'X', gAny,
    nonDigit, g1 'Y', gAny, nonDigit, g1 'Z', gAny]⟩

/-- `/M666 ([X])(.*)[^0-9]([Y])(.*)[^0-9]([Z])(.*)/` -/
def eepromM666Pattern : Regex :=
  ⟨lits "M666 " ++ [g1 'X', gAny, nonDigit, g1 'Y', gAny, nonDigit, g1 'Z', gAny]⟩

/-- `/M900 ([K])([0-9.]+)(.*)/` (bugfix-2.0.x branch) -/
def eepromM900BugfixPattern : Regex :=
  ⟨lits "M900 " ++ [g1 'K', RItem.grp Quant.plus (CClass.oneOf (digits ++ ['.'])),
    gAny]⟩

/-- `/M900 ([K])(.*)[^0-9]([R])(.*)/` (all other branches) -/
def eepromM900KRPattern : Regex :=
  ⟨lits "M900 " ++ [g1 'K', gAny, nonDigit, g1 'R', gAny]⟩

/-- `/M205 ([B])(.*)[^0-9]([S])(.*)[^0-9]([T])(.*)[^0-9]([X])(.*)[^0-9]([Y])(.*)[^0-9]([Z])(.*)[^0-9]([E])(.*)/` (bugfix-2.0.x) -/
def eepromM205BugfixPattern : Regex :=
  ⟨lits "M205 " ++ [g1 'B', gAny, nonDigit, g1 'S', gAny, nonDigit, g1 'T', gAny,
    nonDigit, g1 'X', gAny, nonDigit, g1 'Y', gAny, nonDigit, g1 'Z', gAny,
    nonDigit, g1 'E', gAny]⟩

/-- `/M205 ([S])(.*)[^0-9]([T])(.*)[^0-9]([B])(.*)[^0-9]([X])(.*)[^0-9]([Y])(.*)[^0-9]([Z])(.*)[^0-9]([E])(.*)/` (stable releases and fallback) -/
def eepromM205StablePattern : Regex :=
  ⟨lits "M205 " ++ [g1 'S', gAny, nonDigit, g1 'T', gAny, nonDigit, g1 'B', gAny,
    nonDigit, g1 'X', gAny, nonDigit, g1 'Y', gAny, nonDigit, g1 'Z', gAny,
    nonDigit, g1 'E', gAny]⟩

/-- `/M205 ([S])(.*)[^0-9]([T])(.*)[^0-9]([B])(.*)[^0-9]([X])(.*)[^0-9]([Z])(.*)[^0-9]([E])(.*)/` (release candidates and the 1.0.2 family: no Y slot) -/
def eepromM205NoYPattern : Regex :=
  ⟨lits "M205 " ++ [g1 'S', gAny, nonDigit, g1 'T', gAny, nonDigit, g1 'B', gAny,
    nonDigit, g1 'X', gAny, nonDigit, g1 'Z', gAny, nonDigit, g1 'E', gAny]⟩

/-- `/M145 S0 ([H])(.*)[^0-9]([B])(.*)[^0-9]([F])(.*)/` -/
def eepromM145S0Pattern : Regex :=
  ⟨lits "M145 S0 " ++ [g1 'H', gAny, nonDigit, g1 'B', gAny, nonDigit, g1 'F', gAny]⟩

/-- `/M145 S1 ([H])(.*)[^0-9]([B])(.*)[^0-9]([F])(.*)/` -/
def eepromM145S1Pattern : Regex :=
  ⟨lits "M145 S1 " ++ [g1 'H', gAny, nonDigit, g1 'B', gAny, nonDigit, g1 'F', gAny]⟩

/-- `/M145 S2 ([H])(.*)[^0-9]([B])(.*)[^0-9]([F])(.*)/` -/
def eepromM145S2Pattern : Regex :=
  ⟨lits "M145 S2 " ++ [g1 'H', gAny, nonDigit, g1 'B', gAny, nonDigit, g1 'F', gAny]⟩

/-- `/M145 M0 ([H])(.*)[^0-9]([B])(.*)[^0-9]([F])(.*)/` (release-candidate branch) -/
def eepromM145M0Pattern : Regex :=
  ⟨lits "M145 M0 " ++ [g1 'H', gAny, nonDigit, g1 'B', gAny, nonDigit, g1 'F', gAny]⟩

/-- `/M145 M1 ([H])(.*)[^0-9]([B])(.*)[^0-9]([F])(.*)/` (release-candidate branch) -/
def eepromM145M1Pattern : Regex :=
  ⟨lits "M145 M1 " ++ [g1 'H', gAny, nonDigit, g1 'B', gAny, nonDigit, g1 'F', gAny]⟩

/-- `/M145 M2 ([H])(.*)[^0-9]([B])(.*)[^0-9]([F])(.*)/` (release-candidate branch) -/
def eepromM145M2Pattern : Regex :=
  ⟨lits "M145 M2 " ++ [g1 'H', gAny, nonDigit, g1 'B', gAny, nonDigit, g1 'F', gAny]⟩

/-- `/M301 ([P])(.*)[^0-9]([I])(.*)[^0-9]([D])(.*)/` -/
def eepromM301Pattern : Regex :=
  ⟨lits "M301 " ++ [g1 'P', gAny, nonDigit, g1 'I', gAny, nonDigit, g1 'D', gAny]⟩

/-- `/M301 ([P])(.*)[^0-9]([I])(.*)[^0-9]([D])(.*)[^0-9]([C])(.*)[^0-9]([L])(.*)/` (release-candidate branch) -/
def eepromM301RCPattern : Regex :=
  ⟨lits "M301 " ++ [g1 'P', gAny, nonDigit, g1 'I', gAny, nonDigit, g1 'D', gAny,
    nonDigit, g1 'C', gAny, nonDigit, g1 'L', gAny]⟩

/-- `/M204 ([P])(.*)[^0-9]([R])(.*)[^0-9]([T])(.*)/` -/
def eepromM204PRTPattern : Regex :=
  ⟨lits "M204 " ++ [g1 'P', gAny, nonDigit, g1 'R', gAny, nonDigit, g1 'T', gAny]⟩

/-- `/M204 ([S])(.*)[^0-9]([T])(.*)/` (1.0.2 family) -/
def eepromM204STPattern : Regex :=
  ⟨lits "M204 " ++ [g1 'S', gAny, nonDigit, g1 'T', gAny]⟩

/-! ## Grammar registry (`setRegExVars`) -/

structure Grammar where
  eepromM501RegEx : Regex
  eepromOKRegEx : Regex
  eepromM92RegEx : Regex
  eepromM200RegEx : Regex
  eepromM201RegEx : Regex
  eepromM203RegEx : Regex
  eepromM206RegEx : Regex
  eepromM304RegEx : Regex
  eepromM420RegEx : Regex
  eepromM851RegEx : Regex
  eepromM665RegEx : Regex
  eepromM666RegEx : Regex
  eepromM205RegEx : Regex
  eepromM145S0RegEx : Regex
  eepromM145S1RegEx : Regex
  eepromM145S2RegEx : Regex
  eepromM301RegEx : Regex
  eepromM204RegEx : Regex
  eepromM900RegEx : Regex
deriving DecidableEq, Repr

/-- The stable-release identity group of `setRegExVars` (source line 41). -/
def versionIsStable (version : String) : Bool :=
  version == "latest" || version == "Marlin 1.1.0-RC8" || version == "Marlin 1.1.1" ||
  version == "Marlin 1.1.2" || version == "Marlin 1.1.3" || version == "Marlin 1.1.4" ||
  version == "Marlin 1.1.5" || version == "Marlin 1.1.6" || version == "Marlin 1.1.7" ||
  version == "Marlin 1.1.8"

/-- The release-candidate identity group of `setRegExVars` (source line 49). -/
def versionIsRC (version : String) : Bool :=
  version == "Marlin 1.1.0-RC1" || version == "Marlin 1.1.0-RC2" ||
  version == "Marlin 1.1.0-RC3" || version == "Marlin 1.1.0-RC4" ||
  version == "Marlin 1.1.0-RC5" || version == "Marlin 1.1.0-RC6" ||
  version == "Marlin 1.1.0-RC7"

/-- The legacy 1.0.2 identity group of `setRegExVars` (source line 57). -/
def versionIsLegacy102 (version : String) : Bool :=
  version == "Marlin 1.0.2+" || version == "Marlin V1.0.2;" ||
  version == "Marlin 1.0.2" || version == "Marlin V1;"

/-- The "All versions" assignments at the top of `setRegExVars`. -/
def setRegExVarsBase (self : Grammar) : Grammar :=
  { self with
    eepromM501RegEx := eepromM501Pattern
    eepromOKRegEx := eepromOKPattern
    eepromM92RegEx := eepromM92Pattern
    eepromM200RegEx := eepromM200Pattern
    eepromM201RegEx := eepromM201Pattern
    eepromM203RegEx := eepromM203Pattern
    eepromM206RegEx := eepromM206Pattern
    eepromM304RegEx := eepromM304Pattern
    eepromM420RegEx := eepromM420Pattern
    eepromM851RegEx := eepromM851Pattern
    eepromM665RegEx := eepromM665Pattern
    eepromM666RegEx := eepromM666Pattern }

/-- `setRegExVars(version)`. The JS function mutates `self`; here the prior
grammar is passed in and the updated grammar returned. Note the 1.0.2 branch
does not assign the `M145` patterns, so they are inherited from the prior
state, exactly as in the source. -/
def setRegExVars (self : Grammar) (version : String) : Grammar :=
  if version == "Marlin bugfix-2.0.x" then
    { setRegExVarsBase self with
      eepromM900RegEx := eepromM900BugfixPattern
      eepromM205RegEx := eepromM205BugfixPattern
      eepromM145S0RegEx := eepromM145S0Pattern
      eepromM145S1RegEx := eepromM145S1Pattern
      eepromM145S2RegEx := eepromM145S2Pattern
      eepromM301RegEx := eepromM301Pattern
      eepromM204RegEx := eepromM204PRTPattern }
  else if versionIsStable version then
    { setRegExVarsBase self with
      eepromM205RegEx := eepromM205StablePattern
      eepromM145S0RegEx := eepromM145S0Pattern
      eepromM145S1RegEx := eepromM145S1Pattern
      eepromM145S2RegEx := eepromM145S2Pattern
      eepromM301RegEx := eepromM301Pattern
      eepromM204RegEx := eepromM204PRTPattern
      eepromM900RegEx := eepromM900KRPattern }
  else if versionIsRC version then
    { setRegExVarsBase self with
      eepromM205RegEx := eepromM205NoYPattern
      eepromM145S0RegEx := eepromM145M0Pattern
      eepromM145S1RegEx := eepromM145M1Pattern
      eepromM145S2RegEx := eepromM145M2Pattern
      eepromM301RegEx := eepromM301RCPattern
      eepromM204RegEx := eepromM204PRTPattern
      eepromM900RegEx := eepromM900KRPattern }
  else if versionIsLegacy102 version then
    { setRegExVarsBase self with
      eepromM204RegEx := eepromM204STPattern
      eepromM205RegEx := eepromM205NoYPattern
      eepromM301RegEx := eepromM301Pattern
      eepromM900RegEx := eepromM900KRPattern }
  else
    { setRegExVarsBase self with
      eepromM205RegEx := eepromM205StablePattern
      eepromM145S0RegEx := eepromM145S0Pattern
      eepromM145S1RegEx := eepromM145S1Pattern
      eepromM145S2RegEx := eepromM145S2Pattern
      eepromM301RegEx := eepromM301Pattern
      eepromM204RegEx := eepromM204PRTPattern
      eepromM900RegEx := eepromM900KRPattern }

/-- A grammar value standing for the state before any `setRegExVars` call
(the JS fields are `undefined` then; every field consulted later is first
overwritten, except the `M145` slots under the 1.0.2 family, which the
dispatch in `eepromFieldParse` never reads for that family). -/
def blankGrammar : Grammar :=
  ⟨⟨[]⟩, ⟨[]⟩, ⟨[]⟩, ⟨[]⟩, ⟨[]⟩, ⟨[]⟩, ⟨[]⟩, ⟨[]⟩, ⟨[]⟩, ⟨[]⟩, ⟨[]⟩, ⟨[]⟩, ⟨[]⟩,
    ⟨[]⟩, ⟨[]⟩, ⟨[]⟩, ⟨[]⟩, ⟨[]⟩, ⟨[]⟩⟩

/-- The view model's initialization `self.setRegExVars('Marlin bugfix-2.0.x')`
(source line 83). -/
def initialGrammar : Grammar := setRegExVars blankGrammar "Marlin bugfix-2.0.x"

/-! ## Parameter fields and the store -/

/-- One record pushed onto an `eepromData*` observable array. -/
structure Field where
  dataType : String
  label : String
  origValue : String
  value : String
  unit : String
  description : String
deriving DecidableEq, Repr

/-- JS `match[i]` (`i ≥ 1`): the `i`-th capture group of a successful
`exec`; out-of-range groups are `undefined`, rendered here as `""`. -/
def cap (m : List String) (i : Nat) : String := m.getD (i - 1) ""

/-- Blueprint of one `push({...})` call: field key, label, capture-group
index, unit and description. -/
structure FieldSpec where
  dataType : String
  label : String
  capIdx : Nat
  unit : String
  description : String
deriving DecidableEq, Repr

/-- Build the pushed record: `origValue: ((restoreBackup) ? '' : match[i]),
value: match[i]`. -/
def mkField (restoreBackup : Bool) (m : List String) (s : FieldSpec) : Field :=
  { dataType := s.dataType
    label := s.label
    origValue := if restoreBackup then "" else cap m s.capIdx
    value := cap m s.capIdx
    unit := s.unit
    description := s.description }

/-- One `match = regex.exec(line); if (match) { push; push; ... }` block. -/
def famDelta (r : Regex) (line : String) (restoreBackup : Bool)
    (specs : List FieldSpec) : List Field :=
  match r.exec line with
  | some m => specs.map (mkField restoreBackup m)
  | none => []

/-- M92 steps per unit (pushes onto `eepromDataSteps`). -/
def m92Specs : List FieldSpec :=
  [⟨"M92 X", "X axis", 2, "mm", "steps per unit"⟩,
   ⟨"M92 Y", "Y axis", 4, "mm", "steps per unit"⟩,
   ⟨"M92 Z", "Z axis", 6, "mm", "steps per unit"⟩,
   ⟨"M92 E", "Extruder", 8, "mm", "steps per unit"⟩]

/-- M203 feedrates (`eepromDataFRates`). -/
def m203Specs : List FieldSpec :=
  [⟨"M203 X", "X axis", 2, "mm", "rate per unit"⟩,
   ⟨"M203 Y", "Y axis", 4, "mm", "rate per unit"⟩,
   ⟨"M203 Z", "Z axis", 6, "mm", "rate per unit"⟩,
   ⟨"M203 E", "Extruder", 8, "mm", "rate per unit"⟩]

/-- M201 maximum acceleration (`eepromDataMaxAccel`). -/
def m201Specs : List FieldSpec :=
  [⟨"M201 X", "X axis", 2, "mm/s2", ""⟩,
   ⟨"M201 Y", "Y axis", 4, "mm/s2", ""⟩,
   ⟨"M201 Z", "Z axis", 6, "mm/s2", ""⟩,
   ⟨"M201 E", "Extruder", 8, "mm/s2", ""⟩]

/-- M851 Z-probe offset (`eepromData1`). -/
def m851Specs : List FieldSpec := [⟨"M851 Z", "Z-Probe Offset", 2, "mm", ""⟩]

/-- M206 home offset (`eepromDataHoming`). -/
def m206Specs : List FieldSpec :=
  [⟨"M206 X", "X axis", 2, "mm", ""⟩,
   ⟨"M206 Y", "Y axis", 4, "mm", ""⟩,
   ⟨"M206 Z", "Z axis", 6, "mm", ""⟩]

/-- M666 endstop adjustment (`eepromDataEndstop`). -/
def m666Specs : List FieldSpec :=
  [⟨"M666 X", "X axis", 2, "mm", ""⟩,
   ⟨"M666 Y", "Y axis", 4, "mm", ""⟩,
   ⟨"M666 Z", "Z axis", 6, "mm", ""⟩]

/-- M665 delta settings, first half (`eepromDataDelta1`). -/
def m665Delta1Specs : List FieldSpec :=
  [⟨"M665 L", "Diag Rod", 2, "mm", ""⟩,
   ⟨"M665 R", "Radius", 4, "mm", ""⟩,
   ⟨"M665 S", "Segments", 6, "s", ""⟩]

/-- M665 delta settings, second half (`eepromDataDelta2`). -/
def m665Delta2Specs : List FieldSpec :=
  [⟨"M665 A", "Diag A", 8, "mm", ""⟩,
   ⟨"M665 B", "Diag B", 10, "mm", ""⟩,
   ⟨"M665 C", "Diag C", 12, "mm", ""⟩]

/-- M900 linear advance (`eepromDataLinear`). -/
def m900Specs : List FieldSpec :=
  [⟨"M900 K", "Linear Advance K", 2, "mm", ""⟩,
   ⟨"M900 R", "Linear Ratio", 4, "mm", ""⟩]

/-- M200 filament diameter (`eepromDataFilament`, guarded by emptiness). -/
def m200Spec : FieldSpec := ⟨"M200 D", "Diameter", 2, "mm", ""⟩

/-- M304 bed PID (`eepromDataPIDB`). -/
def m304Specs : List FieldSpec :=
  [⟨"M304 P", "Bed Kp", 2, "term", ""⟩,
   ⟨"M304 I", "Ki", 4, "term", ""⟩,
   ⟨"M304 D", "Kd", 6, "term", ""⟩]

/-- M205, `eepromData1` part (identical in all four dispatch branches). -/
def m205Data1Specs : List FieldSpec :=
  [⟨"M205 S", "Min feedrate", 2, "mm/s", ""⟩,
   ⟨"M205 T", "Min travel", 4, "mm/s", ""⟩,
   ⟨"M205 B", "Min segment", 6, "mm/s", ""⟩]

/-- M205, `eepromData2` part for the stable, release-candidate and default
dispatch branches. -/
def m205Data2Specs : List FieldSpec :=
  [⟨"M205 X", "Max X jerk", 8, "mm/s", ""⟩,
   ⟨"M205 Y", "Max Y jerk", 10, "mm/s", ""⟩,
   ⟨"M205 Z", "Max Z jerk", 12, "mm/s", ""⟩,
   ⟨"M205 E", "Max E jerk", 14, "mm/s", ""⟩]

/-- M205, `eepromData2` part for the 1.0.2 dispatch branch (no Y jerk). -/
def m205Data2LegacySpecs : List FieldSpec :=
  [⟨"M205 X", "Max X jerk", 8, "mm/s", ""⟩,
   ⟨"M205 Z", "Max Z jerk", 10, "mm/s", ""⟩,
   ⟨"M205 E", "Max E jerk", 12, "mm/s", ""⟩]

/-- M204 acceleration (`eepromDataAccel`), P/R/T branches. -/
def m204Specs : List FieldSpec :=
  [⟨"M204 P", "Printing moves", 2, "mm/s2", ""⟩,
   ⟨"M204 R", "Retract", 4, "mm/s2", ""⟩,
   ⟨"M204 T", "Travel", 6, "mm/s2", ""⟩]

/-- M204 acceleration, 1.0.2 dispatch branch (S/T). -/
def m204LegacySpecs : List FieldSpec :=
  [⟨"M204 S", "Printing moves", 2, "mm/s2", ""⟩,
   ⟨"M204 T", "Travel", 4, "mm/s2", ""⟩]

/-- M301 hotend PID (`eepromDataPID`). -/
def m301Specs : List FieldSpec :=
  [⟨"M301 P", "Hotend Kp", 2, "term", ""⟩,
   ⟨"M301 I", "Ki", 4, "term", ""⟩,
   ⟨"M301 D", "Kd", 6, "term", ""⟩]

/-- M301 hotend PID, release-candidate dispatch branch (extra C and L). -/
def m301RCSpecs : List FieldSpec :=
  [⟨"M301 P", "Hotend Kp", 2, "term", ""⟩,
   ⟨"M301 I", "Ki", 4, "term", ""⟩,
   ⟨"M301 D", "Kd", 6, "term", ""⟩,
   ⟨"M301 C", "Kc", 8, "term", ""⟩,
   ⟨"M301 L", "LPQ", 10, "len", ""⟩]

/-- M145 material heatup, stable/default dispatch (`eepromDataMaterialHS0..2`). -/
def m145S0Specs : List FieldSpec :=
  [⟨"M145 S0 H", "S0 Hotend Temperature", 2, "", ""⟩,
   ⟨"M145 S0 B", "Bed Temperature", 4, "", ""⟩,
   ⟨"M145 S0 F", "Fan Speed", 6, "", ""⟩]

def m145S1Specs : List FieldSpec :=
  [⟨"M145 S1 H", "S1 Hotend Temperature", 2, "", ""⟩,
   ⟨"M145 S1 B", "Bed Temperature", 4, "", ""⟩,
   ⟨"M145 S1 F", "Fan Speed", 6, "", ""⟩]

def m145S2Specs : List FieldSpec :=
  [⟨"M145 S2 H", "S2 Hotend Temperature", 2, "", ""⟩,
   ⟨"M145 S2 B", "Bed Temperature", 4, "", ""⟩,
   ⟨"M145 S2 F", "Fan Speed", 6, "", ""⟩]

/-- M145 material heatup, release-candidate dispatch branch. -/
def m145M0Specs : List FieldSpec :=
  [⟨"M145 M0 H", "M0 Hotend Temperature", 2, "", ""⟩,
   ⟨"M145 M0 B", "Bed Temperature", 4, "", ""⟩,
   ⟨"M145 M0 F", "Fan Speed", 6, "", ""⟩]

def m145M1Specs : List FieldSpec :=
  [⟨"M145 M1 H", "M1 Hotend Temperature", 2, "", ""⟩,
   ⟨"M145 M1 B", "Bed Temperature", 4, "", ""⟩,
   ⟨"M145 M1 F", "Fan Speed", 6, "", ""⟩]

def m145M2Specs : List FieldSpec :=
  [⟨"M145 M2 H", "M2 Hotend Temperature", 2, "", ""⟩,
   ⟨"M145 M2 B", "Bed Temperature", 4, "", ""⟩,
   ⟨"M145 M2 F", "Fan Speed", 6, "", ""⟩]

def m420SSpec : FieldSpec := ⟨"M420 S", "Auto Bed Leveling", 2, "0/1", ""⟩
def m420ZSpec : FieldSpec := ⟨"M420 Z", "Fade height", 4, "mm", ""⟩

/-- The parameter store: the eighteen `eepromData*` observable arrays. -/
structure Store where
  eepromData1 : List Field
  eepromData2 : List Field
  eepromDataLevel : List Field
  eepromDataSteps : List Field
  eepromDataFRates : List Field
  eepromDataMaxAccel : List Field
  eepromDataAccel : List Field
  eepromDataPID : List Field
  eepromDataPIDB : List Field
  eepromDataHoming : List Field
  eepromDataMaterialHS0 : List Field
  eepromDataMaterialHS1 : List Field
  eepromDataMaterialHS2 : List Field
  eepromDataFilament : List Field
  eepromDataEndstop : List Field
  eepromDataDelta1 : List Field
  eepromDataDelta2 : List Field
  eepromDataLinear : List Field
deriving DecidableEq, Repr

/-- All eighteen arrays empty: the state after the reset performed at the
start of every load, backup and restore cycle. -/
def emptyStore : Store :=
  ⟨[], [], [], [], [], [], [], [], [], [], [], [], [], [], [], [], [], []⟩

/-! ### The firmware-name dispatch inside `eepromFieldParse` -/

/-- Source line 461: the stable/bugfix name group of the extractor dispatch
(note it also admits `'Marlin bugfix-2.0.x (Github)'`). -/
def nameInStableDispatch (name : String) : Bool :=
  name == "Marlin 1.1.0-RC8" || name == "Marlin 1.1.1" || name == "Marlin 1.1.2" ||
  name == "Marlin 1.1.3" || name == "Marlin 1.1.4" || name == "Marlin 1.1.5" ||
  name == "Marlin 1.1.6" || name == "Marlin 1.1.7" || name == "Marlin 1.1.8" ||
  name == "Marlin bugfix-2.0.x" || name == "Marlin bugfix-2.0.x (Github)"

/-- Source line 700: the release-candidate name group of the dispatch. -/
def nameInRCDispatch (name : String) : Bool :=
  name == "Marlin 1.1.0-RC1" || name == "Marlin 1.1.0-RC2" ||
  name == "Marlin 1.1.0-RC3" || name == "Marlin 1.1.0-RC4" ||
  name == "Marlin 1.1.0-RC5" || name == "Marlin 1.1.0-RC6" ||
  name == "Marlin 1.1.0-RC7"

/-- Source line 932: the legacy 1.0.2 name group of the dispatch. -/
def nameInLegacyDispatch (name : String) : Bool :=
  name == "Marlin 1.0.2+" || name == "Marlin V1.0.2;" ||
  name == "Marlin 1.0.2" || name == "Marlin V1;"

/-- M420 push block (stable and default dispatch branches): the S field is
always pushed, the fade-height field is pushed under
`if (match.length >= 3)`, where the JS match array length is
`m.length + 1`. -/
def m420Delta (g : Grammar) (line : String) (restoreBackup : Bool) : List Field :=
  match g.eepromM420RegEx.exec line with
  | some m =>
      mkField restoreBackup m m420SSpec ::
        (if m.length + 1 ≥ 3 then [mkField restoreBackup m m420ZSpec] else [])
  | none => []

/-- Fields the current line appends to `eepromData1`: the unconditional
M851 block, then the dispatch branch's M205 `eepromData1` part. -/
def data1New (g : Grammar) (name line : String) (rb : Bool) : List Field :=
  famDelta g.eepromM851RegEx line rb m851Specs ++
    (if nameInStableDispatch name then famDelta g.eepromM205RegEx line rb m205Data1Specs
     else if nameInRCDispatch name then famDelta g.eepromM205RegEx line rb m205Data1Specs
     else if nameInLegacyDispatch name then famDelta g.eepromM205RegEx line rb m205Data1Specs
     else famDelta g.eepromM205RegEx line rb m205Data1Specs)

/-- Fields appended to `eepromData2` (the dispatch branch's M205 jerk part). -/
def data2New (g : Grammar) (name line : String) (rb : Bool) : List Field :=
  if nameInStableDispatch name then famDelta g.eepromM205RegEx line rb m205Data2Specs
  else if nameInRCDispatch name then famDelta g.eepromM205RegEx line rb m205Data2Specs
  else if nameInLegacyDispatch name then famDelta g.eepromM205RegEx line rb m205Data2LegacySpecs
  else famDelta g.eepromM205RegEx line rb m205Data2Specs

/-- Fields appended to `eepromDataLevel` (M420; absent from the
release-candidate and 1.0.2 dispatch branches). -/
def levelNew (g : Grammar) (name line : String) (rb : Bool) : List Field :=
  if nameInStableDispatch name then m420Delta g line rb
  else if nameInRCDispatch name then []
  else if nameInLegacyDispatch name then []
  else m420Delta g line rb

/-- Fields appended to `eepromDataAccel` (M204). -/
def accelNew (g : Grammar) (name line : String) (rb : Bool) : List Field :=
  if nameInStableDispatch name then famDelta g.eepromM204RegEx line rb m204Specs
  else if nameInRCDispatch name then famDelta g.eepromM204RegEx line rb m204Specs
  else if nameInLegacyDispatch name then famDelta g.eepromM204RegEx line rb m204LegacySpecs
  else famDelta g.eepromM204RegEx line rb m204Specs

/-- Fields appended to `eepromDataPID` (M301). -/
def pidNew (g : Grammar) (name line : String) (rb : Bool) : List Field :=
  if nameInStableDispatch name then famDelta g.eepromM301RegEx line rb m301Specs
  else if nameInRCDispatch name then famDelta g.eepromM301RegEx line rb m301RCSpecs
  else if nameInLegacyDispatch name then famDelta g.eepromM301RegEx line rb m301Specs
  else famDelta g.eepromM301RegEx line rb m301Specs

/-- Fields appended to `eepromDataMaterialHS0` (M145, first slot). -/
def hs0New (g : Grammar) (name line : String) (rb : Bool) : List Field :=
  if nameInStableDispatch name then famDelta g.eepromM145S0RegEx line rb m145S0Specs
  else if nameInRCDispatch name then famDelta g.eepromM145S0RegEx line rb m145M0Specs
  else if nameInLegacyDispatch name then []
  else famDelta g.eepromM145S0RegEx line rb m145S0Specs

/-- Fields appended to `eepromDataMaterialHS1` (M145, second slot). -/
def hs1New (g : Grammar) (name line : String) (rb : Bool) : List Field :=
  if nameInStableDispatch name then famDelta g.eepromM145S1RegEx line rb m145S1Specs
  else if nameInRCDispatch name then famDelta g.eepromM145S1RegEx line rb m145M1Specs
  else if nameInLegacyDispatch name then []
  else famDelta g.eepromM145S1RegEx line rb m145S1Specs

/-- Fields appended to `eepromDataMaterialHS2` (M145, third slot). -/
def hs2New (g : Grammar) (name line : String) (rb : Bool) : List Field :=
  if nameInStableDispatch name then famDelta g.eepromM145S2RegEx line rb m145S2Specs
  else if nameInRCDispatch name then famDelta g.eepromM145S2RegEx line rb m145M2Specs
  else if nameInLegacyDispatch name then []
  else famDelta g.eepromM145S2RegEx line rb m145S2Specs

/-- M200 block: push only while `eepromDataFilament().length === 0`. -/
def filamentNew (g : Grammar) (line : String) (rb : Bool) (flen : Nat) : List Field :=
  match g.eepromM200RegEx.exec line with
  | some m => if flen == 0 then [mkField rb m m200Spec] else []
  | none => []

/-- `eepromFieldParse(line, restoreBackup)`: run every family pattern of the
active grammar over the line and append the decoded fields to their
sections. The only part of the prior store the extractor reads is the
emptiness of the filament section. The `setTimeout` re-enable side effect
of lines 135-138 is modelled separately by `scheduleReenable`. -/
def eepromFieldParse (g : Grammar) (name line : String) (restoreBackup : Bool)
    (st : Store) : Store :=
  { eepromData1 := st.eepromData1 ++ data1New g name line restoreBackup
    eepromData2 := st.eepromData2 ++ data2New g name line restoreBackup
    eepromDataLevel := st.eepromDataLevel ++ levelNew g name line restoreBackup
    eepromDataSteps := st.eepromDataSteps ++ famDelta g.eepromM92RegEx line restoreBackup m92Specs
    eepromDataFRates := st.eepromDataFRates ++ famDelta g.eepromM203RegEx line restoreBackup m203Specs
    eepromDataMaxAccel := st.eepromDataMaxAccel ++ famDelta g.eepromM201RegEx line restoreBackup m201Specs
    eepromDataAccel := st.eepromDataAccel ++ accelNew g name line restoreBackup
    eepromDataPID := st.eepromDataPID ++ pidNew g name line restoreBackup
    eepromDataPIDB := st.eepromDataPIDB ++ famDelta g.eepromM304RegEx line restoreBackup m304Specs
    eepromDataHoming := st.eepromDataHoming ++ famDelta g.eepromM206RegEx line restoreBackup m206Specs
    eepromDataMaterialHS0 := st.eepromDataMaterialHS0 ++ hs0New g name line restoreBackup
    eepromDataMaterialHS1 := st.eepromDataMaterialHS1 ++ hs1New g name line restoreBackup
    eepromDataMaterialHS2 := st.eepromDataMaterialHS2 ++ hs2New g name line restoreBackup
    eepromDataFilament := st.eepromDataFilament ++
      filamentNew g line restoreBackup st.eepromDataFilament.length
    eepromDataEndstop := st.eepromDataEndstop ++ famDelta g.eepromM666RegEx line restoreBackup m666Specs
    eepromDataDelta1 := st.eepromDataDelta1 ++ famDelta g.eepromM665RegEx line restoreBackup m665Delta1Specs
    eepromDataDelta2 := st.eepromDataDelta2 ++ famDelta g.eepromM665RegEx line restoreBackup m665Delta2Specs
    eepromDataLinear := st.eepromDataLinear ++ famDelta g.eepromM900RegEx line restoreBackup m900Specs }

/-- Lines 135-138: `if (eepromOKRegEx.exec(line)) setTimeout(enable, 2000)`. -/
def scheduleReenable (g : Grammar) (line : String) : Bool :=
  (g.eepromOKRegEx.exec line).isSome

/-- Lines 1334-1336: the backup session's terminal test over the
accumulated text. -/
def backupTerminal (g : Grammar) (backupConfig : String) : Bool :=
  (g.eepromM851RegEx.exec backupConfig).isSome ||
    (g.eepromOKRegEx.exec backupConfig).isSome

/-- All fields of the store, in the iteration order of `saveEeprom`. -/
def allFields (st : Store) : List Field :=
  st.eepromData1 ++ st.eepromData2 ++ st.eepromDataLevel ++ st.eepromDataSteps ++
  st.eepromDataFRates ++ st.eepromDataMaxAccel ++ st.eepromDataAccel ++
  st.eepromDataPID ++ st.eepromDataPIDB ++ st.eepromDataHoming ++
  st.eepromDataMaterialHS0 ++ st.eepromDataMaterialHS1 ++ st.eepromDataMaterialHS2 ++
  st.eepromDataFilament ++ st.eepromDataEndstop ++ st.eepromDataDelta1 ++
  st.eepromDataDelta2 ++ st.eepromDataLinear

/-- All fields one call of `eepromFieldParse` appends, in section order. -/
def parseFields (g : Grammar) (name line : String) (rb : Bool) (flen : Nat) :
    List Field :=
  data1New g name line rb ++ data2New g name line rb ++ levelNew g name line rb ++
  famDelta g.eepromM92RegEx line rb m92Specs ++
  famDelta g.eepromM203RegEx line rb m203Specs ++
  famDelta g.eepromM201RegEx line rb m201Specs ++
  accelNew g name line rb ++ pidNew g name line rb ++
  famDelta g.eepromM304RegEx line rb m304Specs ++
  famDelta g.eepromM206RegEx line rb m206Specs ++
  hs0New g name line rb ++ hs1New g name line rb ++ hs2New g name line rb ++
  filamentNew g line rb flen ++
  famDelta g.eepromM666RegEx line rb m666Specs ++
  famDelta g.eepromM665RegEx line rb m665Delta1Specs ++
  famDelta g.eepromM665RegEx line rb m665Delta2Specs ++
  famDelta g.eepromM900RegEx line rb m900Specs

/-! ## Save, load and restore -/

/-- `_requestSaveDataToEeprom`: the outbound command is
`data_type + value`, concatenated with no separator. -/
def _requestSaveDataToEeprom (data_type value : String) : String :=
  data_type ++ value

/-- `_requestEepromData`: dump request issued unless printing. -/
def _requestEepromData (isPrinting : Bool) : List String :=
  if isPrinting then [] else ["M504", "M501"]

/-- One `_.each(eepromData, ...)` loop of `saveEeprom`: returns the updated
array and the emitted commands, in order. -/
def saveFields : List Field → List Field × List String
  | [] => ([], [])
  | f :: fs =>
      let r := saveFields fs
      if f.origValue != f.value then
        ({ f with origValue := f.value } :: r.1,
          _requestSaveDataToEeprom f.dataType f.value :: r.2)
      else (f :: r.1, r.2)

/-- The eighteen dirty-field loops of `saveEeprom`, in source order. -/
def saveEepromFields (st : Store) : Store × List String :=
  let r1 := saveFields st.eepromData1
  let r2 := saveFields st.eepromData2
  let r3 := saveFields st.eepromDataLevel
  let r4 := saveFields st.eepromDataSteps
  let r5 := saveFields st.eepromDataFRates
  let r6 := saveFields st.eepromDataMaxAccel
  let r7 := saveFields st.eepromDataAccel
  let r8 := saveFields st.eepromDataPID
  let r9 := saveFields st.eepromDataPIDB
  let r10 := saveFields st.eepromDataHoming
  let r11 := saveFields st.eepromDataMaterialHS0
  let r12 := saveFields st.eepromDataMaterialHS1
  let r13 := saveFields st.eepromDataMaterialHS2
  let r14 := saveFields st.eepromDataFilament
  let r15 := saveFields st.eepromDataEndstop
  let r16 := saveFields st.eepromDataDelta1
  let r17 := saveFields st.eepromDataDelta2
  let r18 := saveFields st.eepromDataLinear
  (⟨r1.1, r2.1, r3.1, r4.1, r5.1, r6.1, r7.1, r8.1, r9.1, r10.1, r11.1, r12.1,
     r13.1, r14.1, r15.1, r16.1, r17.1, r18.1⟩,
   r1.2 ++ r2.2 ++ r3.2 ++ r4.2 ++ r5.2 ++ r6.2 ++ r7.2 ++ r8.2 ++ r9.2 ++
     r10.2 ++ r11.2 ++ r12.2 ++ r13.2 ++ r14.2 ++ r15.2 ++ r16.2 ++ r17.2 ++ r18.2)

/-- The dirty fields of the store, in save order. -/
def dirtyFields (st : Store) : List Field :=
  (allFields st).filter (fun f => f.origValue != f.value)

/-- `loadEeprom`: resets the store and (unless printing) requests a dump. -/
def loadEeprom (_st : Store) (isPrinting : Bool) : Store × List String :=
  (emptyStore, _requestEepromData isPrinting)

/-- `saveEeprom`: the dirty-field loops, then `M500`, then `M504`, then a
fresh `loadEeprom` cycle; returns the final store and the full outbound
command stream, in order. -/
def saveEeprom (st : Store) (isPrinting : Bool) : Store × List String :=
  let r := saveEepromFields st
  let l := loadEeprom r.1 isPrinting
  (l.1, r.2 ++ ["M500"] ++ ["M504"] ++ l.2)

/-- JS `String.prototype.split('\n')` on the character list: split at every
newline; the number of pieces is one more than the number of newlines. -/
def splitCharsOnNl : List Char → List (List Char)
  | [] => [[]]
  | c :: cs =>
      match splitCharsOnNl cs with
      | [] => [[c]]
      | l :: ls => if c = '\n' then [] :: l :: ls else (c :: l) :: ls

/-- `blob.split('\n')`. -/
def splitLines (blob : String) : List String :=
  (splitCharsOnNl blob.data).map String.mk

/-- `handleFileSelect`'s reader callback: reset the store and run every line
of the imported blob through the extractor with `restoreBackup = true`. -/
def restoreFromFile (g : Grammar) (name blob : String) : Store :=
  (splitLines blob).foldl
    (fun acc line => eepromFieldParse g name line true acc) emptyStore

/-! ## Grammar lemmas -/

/-- Every branch of `setRegExVars` installs the same steps-per-unit pattern. -/
lemma setRegExVars_m92 (g : Grammar) (v : String) :
    (setRegExVars g v).eepromM92RegEx = eepromM92Pattern := by
  unfold setRegExVars
  split_ifs <;> rfl

/-- Every branch of `setRegExVars` installs the same acknowledgement pattern. -/
lemma setRegExVars_ok (g : Grammar) (v : String) :
    (setRegExVars g v).eepromOKRegEx = eepromOKPattern := by
  unfold setRegExVars
  split_ifs <;> rfl

/-- Claim C7: grammar resolution is total (`setRegExVars` is a Lean
function), and an identity string matching none of the enumerated version
groups receives exactly the grammar of the latest-stable group
(`'latest'`, `'Marlin 1.1.0-RC8'` … `'Marlin 1.1.8'`): the fallback
grammar equals the latest-stable grammar, whatever the prior grammar
state was on either side. -/
theorem fallback_grammar_eq_latest_stable (g g' : Grammar) (v : String)
    (h1 : (v == "Marlin bugfix-2.0.x") = false)
    (h2 : versionIsStable v = false)
    (h3 : versionIsRC v = false)
    (h4 : versionIsLegacy102 v = false) :
    setRegExVars g v = setRegExVars g' "latest" := by
  unfold setRegExVars
  simp [h1, h2, h3, h4, versionIsStable, setRegExVarsBase]

/-- Witness for C7 at the unrecognized identity `"Marlin 2.0.6"`. -/
theorem fallback_grammar_eq_latest_stable_witness :
    ((("Marlin 2.0.6" : String) == "Marlin bugfix-2.0.x") = false ∧
      versionIsStable "Marlin 2.0.6" = false ∧
      versionIsRC "Marlin 2.0.6" = false ∧
      versionIsLegacy102 "Marlin 2.0.6" = false) ∧
    setRegExVars blankGrammar "Marlin 2.0.6" = setRegExVars initialGrammar "latest" :=
  ⟨⟨by decide, by decide, by decide, by decide⟩,
    fallback_grammar_eq_latest_stable blankGrammar initialGrammar "Marlin 2.0.6"
      (by decide) (by decide) (by decide) (by decide)⟩

/-! ## Extractor claims -/

/-- Claim C2: for every grammar produced by `setRegExVars` (any version
string, any prior grammar state) and every firmware-name dispatch, running
the extractor on `"M92 X80.00 Y80.00 Z400.00 E500.00"` with
`restoreBackup = false` appends exactly four fields to the steps-per-unit
section, in X, Y, Z, E order, with values 80.00, 80.00, 400.00, 500.00,
unit `"mm"`, description `"steps per unit"`, and `origValue = value`. -/
theorem m92_line_extracts_four_steps_fields (g : Grammar) (v name : String)
    (st : Store) :
    (eepromFieldParse (setRegExVars g v) name "M92 X80.00 Y80.00 Z400.00 E500.00"
        false st).eepromDataSteps =
      st.eepromDataSteps ++
        [⟨"M92 X", "X axis", "80.00", "80.00", "mm", "steps per unit"⟩,
         ⟨"M92 Y", "Y axis", "80.00", "80.00", "mm", "steps per unit"⟩,
         ⟨"M92 Z", "Z axis", "400.00", "400.00", "mm", "steps per unit"⟩,
         ⟨"M92 E", "Extruder", "500.00", "500.00", "mm", "steps per unit"⟩] := by
  have h : famDelta eepromM92Pattern "M92 X80.00 Y80.00 Z400.00 E500.00" false
      m92Specs =
      [⟨"M92 X", "X axis", "80.00", "80.00", "mm", "steps per unit"⟩,
       ⟨"M92 Y", "Y axis", "80.00", "80.00", "mm", "steps per unit"⟩,
       ⟨"M92 Z", "Z axis", "400.00", "400.00", "mm", "steps per unit"⟩,
       ⟨"M92 E", "Extruder", "500.00", "500.00", "mm", "steps per unit"⟩] := by
    decide
  simp [eepromFieldParse, setRegExVars_m92, h]

/-- Claim C3 is wrong on the code: on a bed-leveling line carrying only the
enable slot the extractor still appends two fields. The guard
`if (match.length >= 3)` can never be false, because a JS match array for
`eepromM420RegEx` always has length 5; the fade-height field is then pushed
with the empty string as its value. Evaluation at the failing input
`"M420 S1"` (stable grammar) and, for contrast, at a line carrying both
slots. -/
theorem m420_enable_only_appends_two_fields :
    (eepromFieldParse (setRegExVars initialGrammar "Marlin 1.1.8") "Marlin 1.1.8"
        "M420 S1" false emptyStore).eepromDataLevel =
      [⟨"M420 S", "Auto Bed Leveling", "1", "1", "0/1", ""⟩,
       ⟨"M420 Z", "Fade height", "", "", "mm", ""⟩] ∧
    (eepromFieldParse (setRegExVars initialGrammar "Marlin 1.1.8") "Marlin 1.1.8"
        "M420 S1 Z10.00" false emptyStore).eepromDataLevel =
      [⟨"M420 S", "Auto Bed Leveling", "1", "1", "0/1", ""⟩,
       ⟨"M420 Z", "Fade height", "10.00", "10.00", "mm", ""⟩] := by
  constructor <;> decide

/-- Claim C8: for every section other than filament diameter, one extractor
call appends a store-independent batch of fields — re-running the extractor
on the same line appends a second copy rather than replacing the first.
Concretely, two runs over one steps-per-unit line leave eight fields (two
X/Y/Z/E groups) in the steps section. -/
theorem non_filament_sections_append :
    (∀ (g : Grammar) (name line : String) (rb : Bool) (st : Store),
      (eepromFieldParse g name line rb st).eepromData1 =
          st.eepromData1 ++ (eepromFieldParse g name line rb emptyStore).eepromData1 ∧
      (eepromFieldParse g name line rb st).eepromData2 =
          st.eepromData2 ++ (eepromFieldParse g name line rb emptyStore).eepromData2 ∧
      (eepromFieldParse g name line rb st).eepromDataLevel =
          st.eepromDataLevel ++ (eepromFieldParse g name line rb emptyStore).eepromDataLevel ∧
      (eepromFieldParse g name line rb st).eepromDataSteps =
          st.eepromDataSteps ++ (eepromFieldParse g name line rb emptyStore).eepromDataSteps ∧
      (eepromFieldParse g name line rb st).eepromDataFRates =
          st.eepromDataFRates ++ (eepromFieldParse g name line rb emptyStore).eepromDataFRates ∧
      (eepromFieldParse g name line rb st).eepromDataMaxAccel =
          st.eepromDataMaxAccel ++ (eepromFieldParse g name line rb emptyStore).eepromDataMaxAccel ∧
      (eepromFieldParse g name line rb st).eepromDataAccel =
          st.eepromDataAccel ++ (eepromFieldParse g name line rb emptyStore).eepromDataAccel ∧
      (eepromFieldParse g name line rb st).eepromDataPID =
          st.eepromDataPID ++ (eepromFieldParse g name line rb emptyStore).eepromDataPID ∧
      (eepromFieldParse g name line rb st).eepromDataPIDB =
          st.eepromDataPIDB ++ (eepromFieldParse g name line rb emptyStore).eepromDataPIDB ∧
      (eepromFieldParse g name line rb st).eepromDataHoming =
          st.eepromDataHoming ++ (eepromFieldParse g name line rb emptyStore).eepromDataHoming ∧
      (eepromFieldParse g name line rb st).eepromDataMaterialHS0 =
          st.eepromDataMaterialHS0 ++ (eepromFieldParse g name line rb emptyStore).eepromDataMaterialHS0 ∧
      (eepromFieldParse g name line rb st).eepromDataMaterialHS1 =
          st.eepromDataMaterialHS1 ++ (eepromFieldParse g name line rb emptyStore).eepromDataMaterialHS1 ∧
      (eepromFieldParse g name line rb st).eepromDataMaterialHS2 =
          st.eepromDataMaterialHS2 ++ (eepromFieldParse g name line rb emptyStore).eepromDataMaterialHS2 ∧
      (eepromFieldParse g name line rb st).eepromDataEndstop =
          st.eepromDataEndstop ++ (eepromFieldParse g name line rb emptyStore).eepromDataEndstop ∧
      (eepromFieldParse g name line rb st).eepromDataDelta1 =
          st.eepromDataDelta1 ++ (eepromFieldParse g name line rb emptyStore).eepromDataDelta1 ∧
      (eepromFieldParse g name line rb st).eepromDataDelta2 =
          st.eepromDataDelta2 ++ (eepromFieldParse g name line rb emptyStore).eepromDataDelta2 ∧
      (eepromFieldParse g name line rb st).eepromDataLinear =
          st.eepromDataLinear ++ (eepromFieldParse g name line rb emptyStore).eepromDataLinear) ∧
    (eepromFieldParse (setRegExVars initialGrammar "latest") "latest"
        "M92 X80.00 Y80.00 Z400.00 E500.00" false
        (eepromFieldParse (setRegExVars initialGrammar "latest") "latest"
          "M92 X80.00 Y80.00 Z400.00 E500.00" false emptyStore)).eepromDataSteps.length
      = 8 := by
  constructor
  · intro g name line rb st
    exact ⟨rfl, rfl, rfl, rfl, rfl, rfl, rfl, rfl, rfl, rfl, rfl, rfl, rfl, rfl,
      rfl, rfl, rfl⟩
  · decide

/-- Claim C9: the filament-diameter family is idempotent. Once the filament
section is non-empty the extractor leaves it unchanged on every further
line; from an empty filament section a single extractor call produces at
most one filament field. -/
theorem filament_idempotent (g : Grammar) (name line : String) (rb : Bool)
    (st : Store) :
    (st.eepromDataFilament ≠ [] →
      (eepromFieldParse g name line rb st).eepromDataFilament =
        st.eepromDataFilament) ∧
    (st.eepromDataFilament = [] →
      (eepromFieldParse g name line rb st).eepromDataFilament.length ≤ 1) := by
  constructor
  · intro h
    have hlen : (st.eepromDataFilament.length == 0) = false := by
      simpa [List.length_eq_zero] using h
    show st.eepromDataFilament ++
        filamentNew g line rb st.eepromDataFilament.length = st.eepromDataFilament
    unfold filamentNew
    cases hx : g.eepromM200RegEx.exec line <;> simp [hlen]
  · intro h
    show (st.eepromDataFilament ++
        filamentNew g line rb st.eepromDataFilament.length).length ≤ 1
    rw [h]
    unfold filamentNew
    cases hx : g.eepromM200RegEx.exec line <;> simp

/-- A store whose filament section already holds its single field. -/
def witnessFilamentStore : Store :=
  { emptyStore with
    eepromDataFilament := [⟨"M200 D", "Diameter", "1.75", "1.75", "mm", ""⟩] }

/-- Witness for C9: a second M200 line leaves the non-empty filament
section untouched. -/
theorem filament_idempotent_witness :
    witnessFilamentStore.eepromDataFilament ≠ [] ∧
    (eepromFieldParse initialGrammar "Marlin bugfix-2.0.x" "M200 D2.85" false
      witnessFilamentStore).eepromDataFilament =
        witnessFilamentStore.eepromDataFilament :=
  ⟨by decide,
    (filament_idempotent initialGrammar "Marlin bugfix-2.0.x" "M200 D2.85" false
      witnessFilamentStore).1 (by decide)⟩

/-! ## Per-family lemmas about an extractor call -/

/-- Every field a `famDelta` block produces has
`origValue = if restoreBackup then "" else value`. -/
lemma famDelta_orig {r : Regex} {line : String} {rb : Bool}
    {specs : List FieldSpec} :
    ∀ f ∈ famDelta r line rb specs, f.origValue = if rb then "" else f.value := by
  intro f hf
  unfold famDelta at hf
  split at hf
  · rcases List.mem_map.mp hf with ⟨s, _, rfl⟩
    rfl
  · simp at hf

/-- Every field a `famDelta` block produces carries one of the block's
`dataType` keys. -/
lemma famDelta_dataType {r : Regex} {line : String} {rb : Bool}
    {specs : List FieldSpec} :
    ∀ f ∈ famDelta r line rb specs, f.dataType ∈ specs.map FieldSpec.dataType := by
  intro f hf
  unfold famDelta at hf
  split at hf
  · rcases List.mem_map.mp hf with ⟨s, hs, rfl⟩
    exact List.mem_map.mpr ⟨s, hs, rfl⟩
  · simp at hf

lemma dataType_ne_of_specs {r : Regex} {line : String} {rb : Bool}
    {specs : List FieldSpec} {t : String} {f : Field}
    (hf : f ∈ famDelta r line rb specs)
    (h : ∀ d ∈ specs.map FieldSpec.dataType, d ≠ t) : f.dataType ≠ t :=
  h _ (famDelta_dataType f hf)

lemma m420Delta_orig {g : Grammar} {line : String} {rb : Bool} :
    ∀ f ∈ m420Delta g line rb, f.origValue = if rb then "" else f.value := by
  intro f hf
  unfold m420Delta at hf
  split at hf
  · rcases List.mem_cons.mp hf with rfl | hf'
    · rfl
    · split at hf'
      · rcases List.mem_singleton.mp hf' with rfl
        rfl
      · simp at hf'
  · simp at hf

lemma filamentNew_orig {g : Grammar} {line : String} {rb : Bool} {flen : Nat} :
    ∀ f ∈ filamentNew g line rb flen,
      f.origValue = if rb then "" else f.value := by
  intro f hf
  unfold filamentNew at hf
  split at hf
  · split at hf
    · rcases List.mem_singleton.mp hf with rfl
      rfl
    · simp at hf
  · simp at hf

lemma filamentNew_dataType {g : Grammar} {line : String} {rb : Bool}
    {flen : Nat} :
    ∀ f ∈ filamentNew g line rb flen, f.dataType = "M200 D" := by
  intro f hf
  unfold filamentNew at hf
  split at hf
  · split at hf
    · rcases List.mem_singleton.mp hf with rfl
      rfl
    · simp at hf
  · simp at hf

lemma data1New_orig {g : Grammar} {name line : String} {rb : Bool} :
    ∀ f ∈ data1New g name line rb, f.origValue = if rb then "" else f.value := by
  intro f hf
  unfold data1New at hf
  rcases List.mem_append.mp hf with h | h
  · exact famDelta_orig f h
  · split_ifs at h <;> exact famDelta_orig f h

lemma data2New_orig {g : Grammar} {name line : String} {rb : Bool} :
    ∀ f ∈ data2New g name line rb, f.origValue = if rb then "" else f.value := by
  intro f hf
  unfold data2New at hf
  split_ifs at hf <;> exact famDelta_orig f hf

lemma levelNew_orig {g : Grammar} {name line : String} {rb : Bool} :
    ∀ f ∈ levelNew g name line rb, f.origValue = if rb then "" else f.value := by
  intro f hf
  unfold levelNew at hf
  split_ifs at hf <;> first
    | exact m420Delta_orig f hf
    | simp at hf

lemma accelNew_orig {g : Grammar} {name line : String} {rb : Bool} :
    ∀ f ∈ accelNew g name line rb, f.origValue = if rb then "" else f.value := by
  intro f hf
  unfold accelNew at hf
  split_ifs at hf <;> exact famDelta_orig f hf

lemma pidNew_orig {g : Grammar} {name line : String} {rb : Bool} :
    ∀ f ∈ pidNew g name line rb, f.origValue = if rb then "" else f.value := by
  intro f hf
  unfold pidNew at hf
  split_ifs at hf <;> exact famDelta_orig f hf

lemma hs0New_orig {g : Grammar} {name line : String} {rb : Bool} :
    ∀ f ∈ hs0New g name line rb, f.origValue = if rb then "" else f.value := by
  intro f hf
  unfold hs0New at hf
  split_ifs at hf <;> first
    | exact famDelta_orig f hf
    | simp at hf

lemma hs1New_orig {g : Grammar} {name line : String} {rb : Bool} :
    ∀ f ∈ hs1New g name line rb, f.origValue = if rb then "" else f.value := by
  intro f hf
  unfold hs1New at hf
  split_ifs at hf <;> first
    | exact famDelta_orig f hf
    | simp at hf

lemma hs2New_orig {g : Grammar} {name line : String} {rb : Bool} :
    ∀ f ∈ hs2New g name line rb, f.origValue = if rb then "" else f.value := by
  intro f hf
  unfold hs2New at hf
  split_ifs at hf <;> first
    | exact famDelta_orig f hf
    | simp at hf

/-- Every field one extractor call appends satisfies the
`origValue`/`value` contract. -/
lemma parseFields_orig {g : Grammar} {name line : String} {rb : Bool}
    {flen : Nat} :
    ∀ f ∈ parseFields g name line rb flen,
      f.origValue = if rb then "" else f.value := by
  intro f hf
  unfold parseFields at hf
  simp only [List.mem_append, or_assoc] at hf
  rcases hf with h|h|h|h|h|h|h|h|h|h|h|h|h|h|h|h|h|h
  exacts [data1New_orig f h, data2New_orig f h, levelNew_orig f h,
    famDelta_orig f h, famDelta_orig f h, famDelta_orig f h, accelNew_orig f h,
    pidNew_orig f h, famDelta_orig f h, famDelta_orig f h, hs0New_orig f h,
    hs1New_orig f h, hs2New_orig f h, filamentNew_orig f h, famDelta_orig f h,
    famDelta_orig f h, famDelta_orig f h, famDelta_orig f h]

section ParseProjections

variable {g : Grammar} {name line : String} {rb : Bool} {st : Store}

lemma parse_data1 : (eepromFieldParse g name line rb st).eepromData1 =
    st.eepromData1 ++ data1New g name line rb := rfl
lemma parse_data2 : (eepromFieldParse g name line rb st).eepromData2 =
    st.eepromData2 ++ data2New g name line rb := rfl
lemma parse_level : (eepromFieldParse g name line rb st).eepromDataLevel =
    st.eepromDataLevel ++ levelNew g name line rb := rfl
lemma parse_steps : (eepromFieldParse g name line rb st).eepromDataSteps =
    st.eepromDataSteps ++ famDelta g.eepromM92RegEx line rb m92Specs := rfl
lemma parse_frates : (eepromFieldParse g name line rb st).eepromDataFRates =
    st.eepromDataFRates ++ famDelta g.eepromM203RegEx line rb m203Specs := rfl
lemma parse_maxaccel : (eepromFieldParse g name line rb st).eepromDataMaxAccel =
    st.eepromDataMaxAccel ++ famDelta g.eepromM201RegEx line rb m201Specs := rfl
lemma parse_accel : (eepromFieldParse g name line rb st).eepromDataAccel =
    st.eepromDataAccel ++ accelNew g name line rb := rfl
lemma parse_pid : (eepromFieldParse g name line rb st).eepromDataPID =
    st.eepromDataPID ++ pidNew g name line rb := rfl
lemma parse_pidb : (eepromFieldParse g name line rb st).eepromDataPIDB =
    st.eepromDataPIDB ++ famDelta g.eepromM304RegEx line rb m304Specs := rfl
lemma parse_homing : (eepromFieldParse g name line rb st).eepromDataHoming =
    st.eepromDataHoming ++ famDelta g.eepromM206RegEx line rb m206Specs := rfl
lemma parse_hs0 : (eepromFieldParse g name line rb st).eepromDataMaterialHS0 =
    st.eepromDataMaterialHS0 ++ hs0New g name line rb := rfl
lemma parse_hs1 : (eepromFieldParse g name line rb st).eepromDataMaterialHS1 =
    st.eepromDataMaterialHS1 ++ hs1New g name line rb := rfl
lemma parse_hs2 : (eepromFieldParse g name line rb st).eepromDataMaterialHS2 =
    st.eepromDataMaterialHS2 ++ hs2New g name line rb := rfl
lemma parse_filament : (eepromFieldParse g name line rb st).eepromDataFilament =
    st.eepromDataFilament ++
      filamentNew g line rb st.eepromDataFilament.length := rfl
lemma parse_endstop : (eepromFieldParse g name line rb st).eepromDataEndstop =
    st.eepromDataEndstop ++ famDelta g.eepromM666RegEx line rb m666Specs := rfl
lemma parse_delta1 : (eepromFieldParse g name line rb st).eepromDataDelta1 =
    st.eepromDataDelta1 ++ famDelta g.eepromM665RegEx line rb m665Delta1Specs := rfl
lemma parse_delta2 : (eepromFieldParse g name line rb st).eepromDataDelta2 =
    st.eepromDataDelta2 ++ famDelta g.eepromM665RegEx line rb m665Delta2Specs := rfl
lemma parse_linear : (eepromFieldParse g name line rb st).eepromDataLinear =
    st.eepromDataLinear ++ famDelta g.eepromM900RegEx line rb m900Specs := rfl

end ParseProjections

set_option maxHeartbeats 1000000 in
/-- Membership after one extractor call: either the field was already in
the store, or it is one of the call's new fields. -/
lemma mem_allFields_parse {g : Grammar} {name line : String} {rb : Bool}
    {st : Store} {f : Field}
    (hf : f ∈ allFields (eepromFieldParse g name line rb st)) :
    f ∈ allFields st ∨
      f ∈ parseFields g name line rb st.eepromDataFilament.length := by
  unfold allFields at hf ⊢
  unfold parseFields
  rw [parse_data1, parse_data2, parse_level, parse_steps, parse_frates,
    parse_maxaccel, parse_accel, parse_pid, parse_pidb, parse_homing, parse_hs0,
    parse_hs1, parse_hs2, parse_filament, parse_endstop, parse_delta1,
    parse_delta2, parse_linear] at hf
  simp only [List.mem_append, or_assoc] at hf ⊢
  tauto

/-- Claim C4: a field produced with `restoreBackup = true` has empty
`origValue`; with `restoreBackup = false` it has `origValue = value`.
Consequently every field of a store rebuilt by the restore import
(`handleFileSelect`, which parses each line of the blob with
`restoreBackup = true` into a reset store) has empty `origValue`. -/
theorem restore_clears_origValue :
    (∀ (g : Grammar) (name line : String) (rb : Bool) (st : Store) (f : Field),
      f ∈ allFields (eepromFieldParse g name line rb st) →
        f ∈ allFields st ∨ f.origValue = (if rb then "" else f.value)) ∧
    (∀ (g : Grammar) (name blob : String) (f : Field),
      f ∈ allFields (restoreFromFile g name blob) → f.origValue = "") := by
  have hmain : ∀ (g : Grammar) (name line : String) (rb : Bool) (st : Store)
      (f : Field), f ∈ allFields (eepromFieldParse g name line rb st) →
        f ∈ allFields st ∨ f.origValue = (if rb then "" else f.value) := by
    intro g name line rb st f hf
    rcases mem_allFields_parse hf with h | h
    · exact Or.inl h
    · exact Or.inr (parseFields_orig f h)
  refine ⟨hmain, ?_⟩
  intro g name blob f hf
  unfold restoreFromFile at hf
  have hfold : ∀ (ls : List String) (st : Store),
      (∀ f' ∈ allFields st, f'.origValue = "") →
      ∀ f' ∈ allFields (ls.foldl
          (fun acc line => eepromFieldParse g name line true acc) st),
        f'.origValue = "" := by
    intro ls
    induction ls with
    | nil => intro st hst f' hf'; exact hst f' hf'
    | cons l ls ih =>
        intro st hst f' hf'
        refine ih _ ?_ f' hf'
        intro f'' hf''
        rcases hmain g name l true st f'' hf'' with h | h
        · exact hst f'' h
        · simpa using h
  refine hfold (splitLines blob) emptyStore ?_ f hf
  intro f' hf'
  simp [allFields, emptyStore] at hf'

/-- Witness for C4: restoring the one-line blob `"M200 D1.75"` yields the
filament field with empty `origValue`. -/
theorem restore_clears_origValue_witness :
    (⟨"M200 D", "Diameter", "", "1.75", "mm", ""⟩ : Field) ∈
      allFields (restoreFromFile initialGrammar "Marlin bugfix-2.0.x" "M200 D1.75") ∧
    (⟨"M200 D", "Diameter", "", "1.75", "mm", ""⟩ : Field).origValue = "" :=
  ⟨by decide,
    restore_clears_origValue.2 initialGrammar "Marlin bugfix-2.0.x" "M200 D1.75"
      _ (by decide)⟩

/-! ## The legacy 1.0.2 family never yields a Y-jerk field (C6) -/

section LegacyDispatch

variable {g : Grammar} {name line : String} {rb : Bool}

lemma data1New_legacy (hS : nameInStableDispatch name = false)
    (hR : nameInRCDispatch name = false)
    (hL : nameInLegacyDispatch name = true) :
    data1New g name line rb =
      famDelta g.eepromM851RegEx line rb m851Specs ++
        famDelta g.eepromM205RegEx line rb m205Data1Specs := by
  unfold data1New; simp [hS, hR, hL]

lemma data2New_legacy (hS : nameInStableDispatch name = false)
    (hR : nameInRCDispatch name = false)
    (hL : nameInLegacyDispatch name = true) :
    data2New g name line rb =
      famDelta g.eepromM205RegEx line rb m205Data2LegacySpecs := by
  unfold data2New; simp [hS, hR, hL]

lemma levelNew_legacy (hS : nameInStableDispatch name = false)
    (hR : nameInRCDispatch name = false)
    (hL : nameInLegacyDispatch name = true) :
    levelNew g name line rb = [] := by
  unfold levelNew; simp [hS, hR, hL]

lemma accelNew_legacy (hS : nameInStableDispatch name = false)
    (hR : nameInRCDispatch name = false)
    (hL : nameInLegacyDispatch name = true) :
    accelNew g name line rb =
      famDelta g.eepromM204RegEx line rb m204LegacySpecs := by
  unfold accelNew; simp [hS, hR, hL]

lemma pidNew_legacy (hS : nameInStableDispatch name = false)
    (hR : nameInRCDispatch name = false)
    (hL : nameInLegacyDispatch name = true) :
    pidNew g name line rb = famDelta g.eepromM301RegEx line rb m301Specs := by
  unfold pidNew; simp [hS, hR, hL]

lemma hs0New_legacy (hS : nameInStableDispatch name = false)
    (hR : nameInRCDispatch name = false)
    (hL : nameInLegacyDispatch name = true) :
    hs0New g name line rb = [] := by
  unfold hs0New; simp [hS, hR, hL]

lemma hs1New_legacy (hS : nameInStableDispatch name = false)
    (hR : nameInRCDispatch name = false)
    (hL : nameInLegacyDispatch name = true) :
    hs1New g name line rb = [] := by
  unfold hs1New; simp [hS, hR, hL]

lemma hs2New_legacy (hS : nameInStableDispatch name = false)
    (hR : nameInRCDispatch name = false)
    (hL : nameInLegacyDispatch name = true) :
    hs2New g name line rb = [] := by
  unfold hs2New; simp [hS, hR, hL]

lemma parseFields_legacy_no_Y {flen : Nat}
    (hS : nameInStableDispatch name = false)
    (hR : nameInRCDispatch name = false)
    (hL : nameInLegacyDispatch name = true) :
    ∀ f ∈ parseFields g name line rb flen, f.dataType ≠ "M205 Y" := by
  intro f hf
  unfold parseFields at hf
  rw [data1New_legacy hS hR hL, data2New_legacy hS hR hL, levelNew_legacy hS hR hL,
    accelNew_legacy hS hR hL, pidNew_legacy hS hR hL, hs0New_legacy hS hR hL,
    hs1New_legacy hS hR hL, hs2New_legacy hS hR hL] at hf
  simp only [List.mem_append, List.append_nil, List.nil_append,
    List.not_mem_nil, or_false, false_or, or_assoc] at hf
  rcases hf with h|h|h|h|h|h|h|h|h|h|h|h|h|h|h
  · exact dataType_ne_of_specs h (by decide)
  · exact dataType_ne_of_specs h (by decide)
  · exact dataType_ne_of_specs h (by decide)
  · exact dataType_ne_of_specs h (by decide)
  · exact dataType_ne_of_specs h (by decide)
  · exact dataType_ne_of_specs h (by decide)
  · exact dataType_ne_of_specs h (by decide)
  · exact dataType_ne_of_specs h (by decide)
  · exact dataType_ne_of_specs h (by decide)
  · exact dataType_ne_of_specs h (by decide)
  · intro he
    have := filamentNew_dataType f h
    rw [he] at this
    simp at this
  · exact dataType_ne_of_specs h (by decide)
  · exact dataType_ne_of_specs h (by decide)
  · exact dataType_ne_of_specs h (by decide)
  · exact dataType_ne_of_specs h (by decide)

end LegacyDispatch

/-- Claim C6: under any of the four legacy 1.0.2 firmware identities, no
input line ever appends a field with dataType `"M205 Y"` (the Y-jerk slot),
whatever the active grammar, line, restore flag or prior store. -/
theorem legacy_102_never_yields_y_jerk (g : Grammar) (name : String)
    (hname : name = "Marlin 1.0.2+" ∨ name = "Marlin V1.0.2;" ∨
      name = "Marlin 1.0.2" ∨ name = "Marlin V1;")
    (line : String) (rb : Bool) (st : Store) (f : Field)
    (hf : f ∈ allFields (eepromFieldParse g name line rb st)) :
    f ∈ allFields st ∨ f.dataType ≠ "M205 Y" := by
  have hS : nameInStableDispatch name = false := by
    rcases hname with rfl | rfl | rfl | rfl <;> decide
  have hR : nameInRCDispatch name = false := by
    rcases hname with rfl | rfl | rfl | rfl <;> decide
  have hL : nameInLegacyDispatch name = true := by
    rcases hname with rfl | rfl | rfl | rfl <;> decide
  rcases mem_allFields_parse hf with h | h
  · exact Or.inl h
  · exact Or.inr (parseFields_legacy_no_Y hS hR hL f h)

/-- Witness for C6: under the `"Marlin 1.0.2"` identity, a field actually
produced from a steps-per-unit line is not the Y-jerk field. -/
theorem legacy_102_never_yields_y_jerk_witness :
    (⟨"M92 X", "X axis", "80.00", "80.00", "mm", "steps per unit"⟩ : Field) ∈
      allFields (eepromFieldParse (setRegExVars initialGrammar "Marlin 1.0.2")
        "Marlin 1.0.2" "M92 X80.00 Y80.00 Z400.00 E500.00" false emptyStore) ∧
    (⟨"M92 X", "X axis", "80.00", "80.00", "mm", "steps per unit"⟩ : Field).dataType
      ≠ "M205 Y" :=
  ⟨by decide,
    (legacy_102_never_yields_y_jerk (setRegExVars initialGrammar "Marlin 1.0.2")
      "Marlin 1.0.2" (Or.inr (Or.inr (Or.inl rfl)))
      "M92 X80.00 Y80.00 Z400.00 E500.00" false emptyStore _
      (by decide)).resolve_left (by decide)⟩

/-! ## Save-diff claims (C1, C5) -/

lemma Field.update_self {f : Field} (h : f.origValue = f.value) :
    ({ f with origValue := f.value } : Field) = f := by
  cases f; simp_all

/-- The dirty-field loop updates `origValue := value` on every field (on
clean fields this is the identity). -/
lemma saveFields_fst : ∀ fs : List Field,
    (saveFields fs).1 = fs.map (fun f => { f with origValue := f.value })
  | [] => rfl
  | f :: fs => by
      simp only [saveFields, List.map_cons]
      split
      · simp [saveFields_fst fs]
      · next h =>
          have hfv : f.origValue = f.value := by simpa using h
          simp [saveFields_fst fs, Field.update_self hfv]

/-- The dirty-field loop emits exactly one command per dirty field, in
order. -/
lemma saveFields_snd : ∀ fs : List Field,
    (saveFields fs).2 = (fs.filter (fun f => f.origValue != f.value)).map
      (fun f => _requestSaveDataToEeprom f.dataType f.value)
  | [] => rfl
  | f :: fs => by
      by_cases h : (f.origValue != f.value) = true <;>
        simp [saveFields, h, saveFields_snd fs]

lemma saveFields_updated_clean (fs : List Field) :
    (fs.map (fun f => { f with origValue := f.value })).filter
      (fun f => f.origValue != f.value) = [] := by
  induction fs with
  | nil => rfl
  | cons f fs ih => simp [ih]

lemma mem_saveFields_fst {fs : List Field} {f : Field}
    (h : f ∈ (saveFields fs).1) : f.origValue = f.value := by
  rw [saveFields_fst] at h
  rcases List.mem_map.mp h with ⟨f', _, rfl⟩
  rfl

/-- The eighteen loops together emit exactly the dirty fields' commands,
in save order. -/
lemma saveEepromFields_snd (st : Store) :
    (saveEepromFields st).2 = (dirtyFields st).map
      (fun f => _requestSaveDataToEeprom f.dataType f.value) := by
  simp only [saveEepromFields, dirtyFields, allFields]
  simp [saveFields_snd, List.filter_append, List.append_assoc]

/-- Claim C1: the save diff yields exactly the commands of the fields with
`origValue != value`, the store afterwards has `origValue = value` on every
field, and an immediate second save run yields no per-field commands. -/
theorem save_diff_exact_and_idempotent (st : Store) :
    (saveEepromFields st).2 = (dirtyFields st).map
        (fun f => _requestSaveDataToEeprom f.dataType f.value) ∧
    (∀ f ∈ allFields (saveEepromFields st).1, f.origValue = f.value) ∧
    (saveEepromFields (saveEepromFields st).1).2 = [] := by
  refine ⟨saveEepromFields_snd st, ?_, ?_⟩
  · intro f hf
    simp only [saveEepromFields, allFields, List.mem_append, or_assoc] at hf
    rcases hf with h|h|h|h|h|h|h|h|h|h|h|h|h|h|h|h|h|h <;>
      exact mem_saveFields_fst h
  · simp only [saveEepromFields]
    simp [saveFields_fst, saveFields_snd, saveFields_updated_clean]

/-- A store holding one edited (dirty) field. -/
def witnessDirtyStore : Store :=
  { emptyStore with
    eepromData1 := [⟨"M205 S", "Min feedrate", "0.00", "9.00", "mm/s", ""⟩] }

/-- Witness for C1: after saving the store with one dirty field, the field
sits in the store with `origValue = value`. -/
theorem save_diff_exact_and_idempotent_witness :
    (⟨"M205 S", "Min feedrate", "9.00", "9.00", "mm/s", ""⟩ : Field) ∈
      allFields (saveEepromFields witnessDirtyStore).1 ∧
    (⟨"M205 S", "Min feedrate", "9.00", "9.00", "mm/s", ""⟩ : Field).origValue =
      (⟨"M205 S", "Min feedrate", "9.00", "9.00", "mm/s", ""⟩ : Field).value :=
  ⟨by decide,
    (save_diff_exact_and_idempotent witnessDirtyStore).2.1 _ (by decide)⟩

/-- Claim C5: a save emits one `dataType ++ value` command per dirty field,
then exactly one `M500`, then one `M504`, then the fresh load cycle's
requests (`M504`, `M501` when not printing), in that order, and leaves the
reset (empty) store behind. -/
theorem save_command_stream (st : Store) (isPrinting : Bool) :
    saveEeprom st isPrinting =
      (emptyStore,
        (dirtyFields st).map (fun f => _requestSaveDataToEeprom f.dataType f.value)
          ++ ["M500"] ++ ["M504"] ++ _requestEepromData isPrinting) := by
  unfold saveEeprom loadEeprom
  simp [saveEepromFields_snd]

/-! ## The acknowledgement substring test (C10) -/

lemma matchSeq_ok_single (c : Char) :
    matchSeq [RItem.lit 'o', RItem.lit 'k'] [c] = none := by
  simp only [matchSeq]
  split <;> rfl

lemma matchSeq_ok_cons (c d : Char) (t : List Char) :
    (matchSeq [RItem.lit 'o', RItem.lit 'k'] (c :: d :: t)).isSome = true ↔
      (c = 'o' ∧ d = 'k') := by
  simp only [matchSeq]
  by_cases hc : c = 'o'
  · by_cases hd : d = 'k'
    · simp [hc, hd, matchSeq]
    · simp [hc, hd, matchSeq]
  · simp [hc]

/-- The unanchored `/ok/` search succeeds exactly on strings containing the
two-character substring `ok`. -/
lemma execFrom_ok : ∀ s : List Char,
    (execFrom [RItem.lit 'o', RItem.lit 'k'] s).isSome = true ↔
      ∃ a b, s = a ++ 'o' :: 'k' :: b := by
  intro s
  induction s with
  | nil =>
      simp [execFrom, matchSeq]
  | cons c t ih =>
      cases hm : matchSeq [RItem.lit 'o', RItem.lit 'k'] (c :: t) with
      | some caps =>
          simp only [execFrom, hm, Option.isSome_some, true_iff]
          cases t with
          | nil => rw [matchSeq_ok_single] at hm; cases hm
          | cons d t' =>
              have hcd := (matchSeq_ok_cons c d t').mp (by rw [hm]; rfl)
              exact ⟨[], t', by simp [hcd.1, hcd.2]⟩
      | none =>
          simp only [execFrom, hm]
          rw [ih]
          constructor
          · rintro ⟨a, b, rfl⟩
            exact ⟨c :: a, b, rfl⟩
          · rintro ⟨a, b, hab⟩
            cases a with
            | nil =>
                simp only [List.nil_append] at hab
                cases t with
                | nil => cases hab
                | cons d t' =>
                    have hc : c = 'o' := by injection hab
                    have ht : d :: t' = 'k' :: b := by
                      injection hab with _ h
                    have hd : d = 'k' := by injection ht
                    have h1 : (matchSeq [RItem.lit 'o', RItem.lit 'k']
                        (c :: d :: t')).isSome = true :=
                      (matchSeq_ok_cons c d t').mpr ⟨hc, hd⟩
                    rw [hm] at h1
                    simp at h1
            | cons a0 a' =>
                injection hab with h1 h2
                exact ⟨a', b, h2⟩

/-- Claim C10: the acknowledgement check is an unanchored substring match.
Under every grammar the registry can produce, `eepromFieldParse`'s
2-second re-enable is scheduled exactly when the line contains `"ok"`
anywhere, and the backup session's terminal condition fires as soon as the
accumulated text contains `"ok"` anywhere. -/
theorem ok_acknowledgement_substring :
    (∀ (g : Grammar) (v line : String),
      scheduleReenable (setRegExVars g v) line = true ↔
        ∃ a b, line.data = a ++ 'o' :: 'k' :: b) ∧
    (∀ (g : Grammar) (v cfg : String),
      (∃ a b, cfg.data = a ++ 'o' :: 'k' :: b) →
        backupTerminal (setRegExVars g v) cfg = true) := by
  have hok : ∀ s : String, (eepromOKPattern.exec s).isSome = true ↔
      ∃ a b, s.data = a ++ 'o' :: 'k' :: b := by
    intro s
    have hitems : eepromOKPattern.items = [RItem.lit 'o', RItem.lit 'k'] := rfl
    unfold Regex.exec
    rw [hitems]
    exact execFrom_ok s.data
  constructor
  · intro g v line
    unfold scheduleReenable
    rw [setRegExVars_ok]
    exact hok line
  · intro g v cfg hc
    unfold backupTerminal
    rw [setRegExVars_ok]
    have h1 := (hok cfg).mpr hc
    simp [h1]

/-- Witness for C10: the blob `"ok"` contains the substring and does fire
the backup terminal condition. -/
theorem ok_acknowledgement_substring_witness :
    (("ok" : String).data = [] ++ 'o' :: 'k' :: []) ∧
    backupTerminal (setRegExVars blankGrammar "latest") "ok" = true :=
  ⟨rfl, ok_acknowledgement_substring.2 blankGrammar "latest" "ok" ⟨[], [], rfl⟩⟩

end EepromMarlin
